import Mathlib

/-!
Verification of the picotool MCP server's command composition and
execution engine (`src/picotool_mcp_server/picotool.py` and
`src/picotool_mcp_server/server.py`).

The Python code is shallowly embedded: each wrapper method's argument
composition becomes a Lean function on a parameter record that mirrors the
method's keyword parameters and defaults; the subprocess boundary is
modelled by a `SpawnResult` value describing how the spawn attempt ended,
and exceptions become `Except.error` carrying the exception's message
string.  Python truthiness of `Optional[str]` values (`if bus:`) is the
test "present and non-empty"; `str.strip()` is modelled by `pyStrip`.
-/

deriving instance DecidableEq for Except

/-- Python `str.strip()`: drop whitespace characters from both ends. -/
def pyStrip (s : String) : String :=
  String.mk (((s.data.dropWhile Char.isWhitespace).reverse.dropWhile
    Char.isWhitespace).reverse)

/-- Outcome of attempting to spawn the external binary and wait for it:
either the process ran to completion with an exit code and captured
stdout/stderr text, or the spawn raised `FileNotFoundError`, or some other
exception with a description (`str(e)`) was raised while spawning or
reading. -/
inductive SpawnResult where
  | completed (returncode : Int) (stdout stderr : String)
  | fileNotFound
  | otherError (description : String)
  deriving DecidableEq

/-- Python `args.extend([flag, value])` guarded by `if value:` where
`value : Optional[str]`: extend only when the option is present and
non-empty (Python truthiness). -/
def extendOpt (args : List String) (flag : String) (v : Option String) : List String :=
  match v with
  | none => args
  | some s => if s.isEmpty then args else args ++ [flag, s]

/-- Parameters of `PicotoolWrapper.info`, with the method's declared
defaults (picotool.py lines 63-79). -/
structure InfoParams where
  target : String := ""
  basic : Bool := true
  metadata : Bool := false
  pins : Bool := false
  device : Bool := false
  debug : Bool := false
  build : Bool := false
  all : Bool := false
  force : Bool := false
  force_no_reboot : Bool := false
  bus : Option String := none
  address : Option String := none
  vid : Option String := none
  pid : Option String := none
  serial : Option String := none
  deriving DecidableEq

/-- Parameters of `PicotoolWrapper.reboot`, with the method's declared
defaults (picotool.py lines 146-158). -/
structure RebootParams where
  all_devices : Bool := false
  usb_mass_storage : Bool := false
  partition : Option String := none
  cpu : Option String := none
  force : Bool := false
  force_no_reboot : Bool := false
  bus : Option String := none
  address : Option String := none
  vid : Option String := none
  pid : Option String := none
  serial : Option String := none
  deriving DecidableEq

namespace PicotoolWrapper

/-- Argument-list composition performed by `PicotoolWrapper.info`
(picotool.py lines 103-143), translated statement by statement: the
mutable `args` list becomes a chain of rebindings. -/
def info_args (p : InfoParams) : List String :=
  let args := ["info"]
  let args :=
    if p.all then args ++ ["-a"]
    else
      let args := if p.basic then args ++ ["-b"] else args
      let args := if p.metadata then args ++ ["-m"] else args
      let args := if p.pins then args ++ ["-p"] else args
      let args := if p.device then args ++ ["-d"] else args
      let args := if p.debug then args ++ ["--debug"] else args
      let args := if p.build then args ++ ["-l"] else args
      args
  let args := if p.target.isEmpty then args else args ++ [p.target]
  let args := extendOpt args "--bus" p.bus
  let args := extendOpt args "--address" p.address
  let args := extendOpt args "--vid" p.vid
  let args := extendOpt args "--pid" p.pid
  let args := extendOpt args "--ser" p.serial
  let args := if p.force then args ++ ["-f"]
    else if p.force_no_reboot then args ++ ["-F"] else args
  args

/-- Argument-list composition performed by `PicotoolWrapper.reboot`
(picotool.py lines 178-207), translated statement by statement. -/
def reboot_args (p : RebootParams) : List String :=
  let args := ["reboot"]
  let args := if p.all_devices then args ++ ["-a"] else args
  let args := if p.usb_mass_storage then args ++ ["-u"] else args
  let args := extendOpt args "-g" p.partition
  let args := extendOpt args "-c" p.cpu
  let args := extendOpt args "--bus" p.bus
  let args := extendOpt args "--address" p.address
  let args := extendOpt args "--vid" p.vid
  let args := extendOpt args "--pid" p.pid
  let args := extendOpt args "--ser" p.serial
  let args := if p.force then args ++ ["-f"]
    else if p.force_no_reboot then args ++ ["-F"] else args
  args

/-- Result mapping of `PicotoolWrapper._run_command` (picotool.py lines
43-61), given how the spawn attempt ended.  Note the control flow of the
source: the `PicotoolError("picotool command failed: ...")` raised for a
non-zero exit code is raised inside the `try` block, so it is caught by
the same statement's generic `except Exception as e` clause and re-raised
as `PicotoolError("Error running picotool: " + str(e))`; only the
`FileNotFoundError` handler's re-raise and the generic handler's re-raise
escape the function. -/
def run_command (picotool_path : String) (spawn : SpawnResult) : Except String String :=
  match spawn with
  | .completed rc out err =>
      if rc ≠ 0 then
        .error ("Error running picotool: " ++ ("picotool command failed: " ++ pyStrip err))
      else
        .ok (pyStrip out)
  | .fileNotFound => .error ("picotool binary not found at: " ++ picotool_path)
  | .otherError d => .error ("Error running picotool: " ++ d)

/-- `PicotoolWrapper.__init__` (picotool.py lines 16-27): resolve the
binary path, where `whichPicotool` is the result of `shutil.which`; a
raised `PicotoolError` becomes `Except.error` with its message. -/
def init (picotool_path : Option String) (whichPicotool : Option String) :
    Except String String :=
  match picotool_path with
  | some p => .ok p
  | none =>
      match whichPicotool with
      | some p => .ok p
      | none => .error "picotool not found in PATH. Please install picotool."

/-- `PicotoolWrapper.info` (picotool.py line 144): compose the arguments
and run the command.  `exec` models the environment's response to
spawning the binary with a given argument vector. -/
def info (picotool_path : String) (p : InfoParams)
    (exec : List String → SpawnResult) : Except String String :=
  run_command picotool_path (exec (info_args p))

/-- `PicotoolWrapper.reboot` (picotool.py line 208): compose the arguments
and run the command. -/
def reboot (picotool_path : String) (p : RebootParams)
    (exec : List String → SpawnResult) : Except String String :=
  run_command picotool_path (exec (reboot_args p))

end PicotoolWrapper

/-- Parameters of the `picotool_partition_info` tool as declared by the
server schema (server.py lines 176-219) and extracted by `call_tool`
(server.py lines 381-410). -/
structure PartitionInfoParams where
  family_id : Option String := none
  force : Bool := false
  force_no_reboot : Bool := false
  bus : Option String := none
  address : Option String := none
  vid : Option String := none
  pid : Option String := none
  serial : Option String := none
  deriving DecidableEq

/-- Parameters of the `picotool_erase` tool as declared by the server
schema (server.py lines 220-276) and extracted by `call_tool`
(server.py lines 412-440). -/
structure EraseParams where
  all_flash : Bool := false
  sector : Option String := none
  range_start : Option String := none
  range_end : Option String := none
  force : Bool := false
  force_no_reboot : Bool := false
  bus : Option String := none
  address : Option String := none
  vid : Option String := none
  pid : Option String := none
  serial : Option String := none
  deriving DecidableEq

/-- Append a bare (flagless) token for an optional value when it is
present and non-empty, as Python `if v: args.append(v)` does for an
`Optional[str]`. -/
def extendArg (args : List String) (v : Option String) : List String :=
  match v with
  | none => args
  | some s => if s.isEmpty then args else args ++ [s]

/-- Append the address-range tokens when both endpoints are present and
non-empty. -/
def extendRange (args : List String) (rs re : Option String) : List String :=
  match rs, re with
  | some s, some e => if s.isEmpty || e.isEmpty then args else args ++ ["-r", s, e]
  | _, _ => args

namespace PicotoolWrapper

/-- Modelled from the spec: `PicotoolWrapper.partition_info` is invoked by
the server (server.py line 394) and declared in its tool schema, but its
definition is missing from picotool.py.  Per the spec (sections 3 and
4.1), the operation reports the partition layout; its token list is the
operation name, then the target/subject (the family identifier, emitted
only if non-empty), then the device selectors in the fixed order bus,
address, vid, pid, serial, then the force flag. -/
def partition_info_args (p : PartitionInfoParams) : List String :=
  let args := ["partition", "info"]
  let args := extendArg args p.family_id
  let args := extendOpt args "--bus" p.bus
  let args := extendOpt args "--address" p.address
  let args := extendOpt args "--vid" p.vid
  let args := extendOpt args "--pid" p.pid
  let args := extendOpt args "--ser" p.serial
  let args := if p.force then args ++ ["-f"]
    else if p.force_no_reboot then args ++ ["-F"] else args
  args

/-- Modelled from the spec: `PicotoolWrapper.erase` is invoked by the
server (server.py line 428) and declared in its tool schema, but its
definition is missing from picotool.py.  Per the spec (sections 3 and
4.1), erase supports an erase-all mode, a single-sector mode and an
address-range (start+end) mode; the composer emits whatever is requested
without validating their mutual exclusivity, then the device selectors in
fixed order, then the force flag.  The range tokens are emitted when both
endpoints are supplied. -/
def erase_args (p : EraseParams) : List String :=
  let args := ["erase"]
  let args := if p.all_flash then args ++ ["-a"] else args
  let args := extendOpt args "-s" p.sector
  let args := extendRange args p.range_start p.range_end
  let args := extendOpt args "--bus" p.bus
  let args := extendOpt args "--address" p.address
  let args := extendOpt args "--vid" p.vid
  let args := extendOpt args "--pid" p.pid
  let args := extendOpt args "--ser" p.serial
  let args := if p.force then args ++ ["-f"]
    else if p.force_no_reboot then args ++ ["-F"] else args
  args

/-- Modelled from the spec: composed erase command is executed through the
shared executor and its outcome returned. -/
def erase (picotool_path : String) (p : EraseParams)
    (exec : List String → SpawnResult) : Except String String :=
  run_command picotool_path (exec (erase_args p))

/-- Modelled from the spec: composed partition-info command is executed
through the shared executor and its outcome returned. -/
def partition_info (picotool_path : String) (p : PartitionInfoParams)
    (exec : List String → SpawnResult) : Except String String :=
  run_command picotool_path (exec (partition_info_args p))

end PicotoolWrapper

/-- Server startup (server.py line 21): the module-level statement
`picotool = PicotoolWrapper()` constructs the wrapper with no explicit
path; if the constructor raises, module initialization fails and the
serving process never starts. -/
def serverInit (whichPicotool : Option String) : Except String String :=
  PicotoolWrapper.init none whichPicotool

/-- Response content item produced by `call_tool` (server.py): a
`types.TextContent` value carrying the response text. -/
structure TextContent where
  text : String
  deriving DecidableEq

/-- The label interpolated into each branch's error message by
`call_tool` (server.py lines 286-450); `none` for a tool name outside the
fixed set, for which `call_tool` raises `ValueError` instead of handling
the call. -/
def toolErrorLabel : String → Option String
  | "picotool_info" => some "info"
  | "picotool_reboot" => some "reboot"
  | "picotool_version" => some "version"
  | "picotool_partition_info" => some "partition info"
  | "picotool_erase" => some "erase"
  | _ => none

/-- The names of the five tools handled by `call_tool` (server.py). -/
def fixedToolNames : List String :=
  ["picotool_info", "picotool_reboot", "picotool_version",
   "picotool_partition_info", "picotool_erase"]

/-- Per-call boundary of `call_tool` (server.py lines 280-450): each
recognized tool's branch wraps its whole body in `try/except Exception`,
returning the wrapper's result text on success and a
`TextContent("Error running picotool <label>: <message>")` when the body
raises.  `outcome` abstracts the branch body: `Except.ok` is the text the
wrapper call returned, `Except.error` the message of whatever exception
the body raised.  An unrecognized name raises `ValueError` (uncaught),
modelled as the outer `Except.error`. -/
def call_tool (name : String) (outcome : Except String String) :
    Except String (List TextContent) :=
  match toolErrorLabel name with
  | some label =>
      match outcome with
      | .ok result => .ok [⟨result⟩]
      | .error e => .ok [⟨"Error running picotool " ++ label ++ ": " ++ e⟩]
  | none => .error ("Unknown tool: " ++ name)

/-! Spec-side segment functions: the spec (sections 3, 4.1 and 8)
describes the composed token list as the concatenation
`[operation][options][target][selectors][force]`.  These definitions
follow the spec's words and are compared with the source translations
above. -/

/-- One `--flag value` selector pair, emitted only when the field is
present and non-empty. -/
def optPair (flag : String) (v : Option String) : List String :=
  match v with
  | none => []
  | some s => if s.isEmpty then [] else [flag, s]

/-- Device-selector segment: one pair per non-empty field, always in the
fixed sub-order bus, address, vid, pid, serial. -/
def selectorTokens (bus address vid pid serial : Option String) : List String :=
  optPair "--bus" bus ++ optPair "--address" address ++ optPair "--vid" vid
    ++ optPair "--pid" pid ++ optPair "--ser" serial

/-- Force segment: the force flag if requested, else the
force-no-reboot flag if requested, else nothing; Force wins when both are
set. -/
def forceTokens (force force_no_reboot : Bool) : List String :=
  if force then ["-f"] else if force_no_reboot then ["-F"] else []

/-- Information-option segment of the info operation: the all-information
flag alone subsumes every individual flag; otherwise one flag per
requested category in the canonical order basic, metadata, pins, device,
debug, build. -/
def infoOptionTokens (p : InfoParams) : List String :=
  if p.all then ["-a"]
  else
    (if p.basic then ["-b"] else []) ++ (if p.metadata then ["-m"] else [])
      ++ (if p.pins then ["-p"] else []) ++ (if p.device then ["-d"] else [])
      ++ (if p.debug then ["--debug"] else []) ++ (if p.build then ["-l"] else [])

/-- Option segment of the reboot operation, in source order: all-devices,
usb-mass-storage, partition, cpu. -/
def rebootOptionTokens (p : RebootParams) : List String :=
  (if p.all_devices then ["-a"] else []) ++ (if p.usb_mass_storage then ["-u"] else [])
    ++ optPair "-g" p.partition ++ optPair "-c" p.cpu

/-- Target segment: the target token exactly when the target string is
non-empty. -/
def targetTokens (t : String) : List String :=
  if t.isEmpty then [] else [t]

/-- Target segment for an optional target (the erase and partition-info
family identifier). -/
def optTargetTokens : Option String → List String
  | none => []
  | some s => if s.isEmpty then [] else [s]

/-- Erase-mode segment: each of the three modes is emitted independently
of the others. -/
def eraseModeTokens (p : EraseParams) : List String :=
  (if p.all_flash then ["-a"] else []) ++ optPair "-s" p.sector
    ++ (match p.range_start, p.range_end with
        | some s, some e => if s.isEmpty || e.isEmpty then [] else ["-r", s, e]
        | _, _ => [])

/-- Failure-message shape of the spec's BinaryNotFound kind: the message
carries the resolved path. -/
def binaryNotFoundMessage (path : String) : String :=
  "picotool binary not found at: " ++ path

/-- Failure-message shape of the spec's CommandFailed kind: the message
carries the tool's trimmed stderr text. -/
def commandFailedMessage (stderrText : String) : String :=
  "picotool command failed: " ++ stderrText

/-- Failure-message shape of the spec's ExecutionError kind: the message
carries a description of the fault. -/
def executionErrorMessage (description : String) : String :=
  "Error running picotool: " ++ description

/-! Helper lemmas relating the statement-by-statement translations to the
segment concatenations. -/

theorem append_if (c : Bool) (x y : List String) :
    (if c then x ++ y else x) = x ++ (if c then y else []) := by
  cases c <;> simp

theorem append_if2 (c : Bool) (x y z : List String) :
    (if c then x ++ y else x ++ z) = x ++ (if c then y else z) := by
  cases c <;> simp

theorem append_if_not (c : Bool) (x y : List String) :
    (if c then x else x ++ y) = x ++ (if c then [] else y) := by
  cases c <;> simp

theorem extendOpt_eq (args : List String) (flag : String) (v : Option String) :
    extendOpt args flag v = args ++ optPair flag v := by
  cases v with
  | none => simp [extendOpt, optPair]
  | some s => by_cases h : s.isEmpty <;> simp [extendOpt, optPair, h]

theorem extendArg_eq (args : List String) (v : Option String) :
    extendArg args v = args ++ optTargetTokens v := by
  cases v with
  | none => simp [extendArg, optTargetTokens]
  | some s => by_cases h : s.isEmpty <;> simp [extendArg, optTargetTokens, h]

theorem extendRange_eq (args : List String) (rs re : Option String) :
    extendRange args rs re
      = args ++ (match rs, re with
          | some s, some e => if s.isEmpty || e.isEmpty then [] else ["-r", s, e]
          | _, _ => []) := by
  cases rs with
  | none => simp [extendRange]
  | some s =>
      cases re with
      | none => simp [extendRange]
      | some e => by_cases h : (s.isEmpty || e.isEmpty) <;> simp [extendRange, h]

/-! Claim theorems. -/

/-- Claim C1: for the implemented operations info and reboot, the composed
token list is ordered exactly operation name, option flags, target or
subject, selector flags, force flag (the reboot operation has no target
parameter, so its target segment is empty), and the selector flags that
are emitted always appear in the fixed sub-order bus, address, vid, pid,
serial. -/
theorem info_reboot_token_order (p : InfoParams) (q : RebootParams) :
    PicotoolWrapper.info_args p
      = ["info"] ++ infoOptionTokens p ++ targetTokens p.target
        ++ selectorTokens p.bus p.address p.vid p.pid p.serial
        ++ forceTokens p.force p.force_no_reboot
    ∧ PicotoolWrapper.reboot_args q
      = ["reboot"] ++ rebootOptionTokens q
        ++ selectorTokens q.bus q.address q.vid q.pid q.serial
        ++ forceTokens q.force q.force_no_reboot := by
  constructor <;>
    simp only [PicotoolWrapper.info_args, PicotoolWrapper.reboot_args,
      infoOptionTokens, rebootOptionTokens, targetTokens, selectorTokens, forceTokens,
      extendOpt_eq, append_if, append_if2, append_if_not, List.append_assoc]

/-- Claim C2 (code bug): on a non-zero exit code the raised
`PicotoolError("picotool command failed: <stderr>")` is re-caught by the
same try statement's generic handler and re-wrapped, so the surfaced
failure message is not the trimmed stderr text the claim (and the spec's
stubbed-executor test) requires. -/
theorem run_command_nonzero_exit_rewrapped :
    PicotoolWrapper.run_command "/usr/bin/picotool"
        (SpawnResult.completed 1 "" "no device found")
      = Except.error "Error running picotool: picotool command failed: no device found"
    ∧ "Error running picotool: picotool command failed: no device found"
        ≠ "no device found"
    ∧ "Error running picotool: picotool command failed: no device found"
        ≠ commandFailedMessage "no device found" := by
  refine ⟨by decide, by decide, by decide⟩

/-- Claim C3 (counterexample): when binary-path resolution yields no
binary at process start, the server's module-level wrapper construction
fails with a raised error, so no serving state exists at all — refuting
the claim that the serving process keeps running and answers every
subsequent operation call with a BinaryNotFound failure. -/
theorem serverInit_none_fails :
    serverInit none
      = Except.error "picotool not found in PATH. Please install picotool."
    ∧ (serverInit none).isOk = false := ⟨rfl, rfl⟩

/-- Claim C3 (amended): if binary-path resolution at process start yields
no binary, wrapper construction raises the not-found error during server
module initialization, so the serving process fails to start (and hence
no operation call ever spawns a process); with a resolved path the
wrapper holds that path. -/
theorem serverInit_resolution (w : Option String) :
    serverInit w
      = match w with
        | none => Except.error "picotool not found in PATH. Please install picotool."
        | some p => Except.ok p := by
  cases w <;> rfl

/-- Claim C4 (spec-modelled): the erase and partition-info operations
belong to the supported set; erase composes its three modes independently
with no exclusivity validation, partition-info composes operation, target,
selectors and force likewise, and both execute the composed command and
return the outcome as success text or a classified failure. -/
theorem erase_partition_info_supported (e : EraseParams) (q : PartitionInfoParams)
    (path : String) (exec : List String → SpawnResult) :
    PicotoolWrapper.erase_args e
      = ["erase"] ++ eraseModeTokens e
        ++ selectorTokens e.bus e.address e.vid e.pid e.serial
        ++ forceTokens e.force e.force_no_reboot
    ∧ PicotoolWrapper.partition_info_args q
      = ["partition", "info"] ++ optTargetTokens q.family_id
        ++ selectorTokens q.bus q.address q.vid q.pid q.serial
        ++ forceTokens q.force q.force_no_reboot
    ∧ eraseModeTokens
        { all_flash := true, sector := some "0x10000000",
          range_start := some "0x10000000", range_end := some "0x10100000" }
        = ["-a", "-s", "0x10000000", "-r", "0x10000000", "0x10100000"]
    ∧ PicotoolWrapper.erase path e exec
        = PicotoolWrapper.run_command path (exec (PicotoolWrapper.erase_args e))
    ∧ PicotoolWrapper.partition_info path q exec
        = PicotoolWrapper.run_command path (exec (PicotoolWrapper.partition_info_args q))
    ∧ PicotoolWrapper.erase path e (fun _ => SpawnResult.completed 0 " done " "")
        = Except.ok "done"
    ∧ PicotoolWrapper.erase path e (fun _ => SpawnResult.fileNotFound)
        = Except.error ("picotool binary not found at: " ++ path) := by
  refine ⟨?_, ?_, by decide, rfl, rfl, ?_, rfl⟩
  · simp only [PicotoolWrapper.erase_args, eraseModeTokens, selectorTokens, forceTokens,
      extendOpt_eq, extendRange_eq, append_if, append_if2, append_if_not,
      List.append_assoc]
  · simp only [PicotoolWrapper.partition_info_args, optTargetTokens, selectorTokens,
      forceTokens, extendOpt_eq, extendArg_eq, append_if, append_if2, append_if_not,
      List.append_assoc]
  · simp only [PicotoolWrapper.erase, PicotoolWrapper.run_command]
    decide

/-- Claim C5: whenever the all-information parameter of the info
operation is true, the option segment is exactly the all-information
short flag, and the composed token list is identical for any values of
the individual information flags. -/
theorem info_all_subsumes (p : InfoParams) (h : p.all = true) :
    PicotoolWrapper.info_args p
      = ["info", "-a"] ++ targetTokens p.target
        ++ selectorTokens p.bus p.address p.vid p.pid p.serial
        ++ forceTokens p.force p.force_no_reboot
    ∧ ∀ b m pi d dbg bl : Bool,
        PicotoolWrapper.info_args
          { p with basic := b, metadata := m, pins := pi,
                   device := d, debug := dbg, build := bl }
          = PicotoolWrapper.info_args p := by
  constructor
  · simp only [PicotoolWrapper.info_args, targetTokens, selectorTokens, forceTokens,
      h, if_true, extendOpt_eq, append_if, append_if2, append_if_not, List.append_assoc]
    simp
  · intro b m pi d dbg bl
    simp only [PicotoolWrapper.info_args, h, if_true]

/-- Claim C5 witness: the all-information flag at a concrete input. -/
theorem info_all_subsumes_witness :
    PicotoolWrapper.info_args { all := true }
      = ["info", "-a"] ++ targetTokens "" ++ selectorTokens none none none none none
        ++ forceTokens false false :=
  (info_all_subsumes { all := true } rfl).1

/-- Claim C6: for both operations taking force parameters, the composed
token list ends with the force segment; that segment is the Force flag
when force is true (whatever force-no-reboot is), the ForceNoReboot flag
when only force-no-reboot is true, nothing when both are false, and it
never holds more than one flag. -/
theorem force_flag_last (p : InfoParams) (q : RebootParams) :
    PicotoolWrapper.info_args p
      = (["info"] ++ infoOptionTokens p ++ targetTokens p.target
          ++ selectorTokens p.bus p.address p.vid p.pid p.serial)
        ++ forceTokens p.force p.force_no_reboot
    ∧ PicotoolWrapper.reboot_args q
      = (["reboot"] ++ rebootOptionTokens q
          ++ selectorTokens q.bus q.address q.vid q.pid q.serial)
        ++ forceTokens q.force q.force_no_reboot
    ∧ (∀ fnr : Bool, forceTokens true fnr = ["-f"])
    ∧ forceTokens false true = ["-F"]
    ∧ forceTokens false false = []
    ∧ ∀ f fnr : Bool, (forceTokens f fnr).length ≤ 1 := by
  refine ⟨?_, ?_, fun fnr => rfl, rfl, rfl, fun f fnr => ?_⟩
  · simp only [PicotoolWrapper.info_args, infoOptionTokens, targetTokens,
      selectorTokens, forceTokens, extendOpt_eq, append_if, append_if2, append_if_not,
      List.append_assoc]
  · simp only [PicotoolWrapper.reboot_args, rebootOptionTokens, selectorTokens,
      forceTokens, extendOpt_eq, append_if, append_if2, append_if_not, List.append_assoc]
  · cases f <;> cases fnr <;> decide

/-- Claim C7: composing the info operation with an empty target emits no
target token, while a non-empty target is emitted as exactly one token
equal to the target string, after the option flags and before the
selector flags. -/
theorem info_target_token (p : InfoParams) :
    PicotoolWrapper.info_args p
      = ["info"] ++ infoOptionTokens p
        ++ (if p.target.isEmpty then [] else [p.target])
        ++ selectorTokens p.bus p.address p.vid p.pid p.serial
        ++ forceTokens p.force p.force_no_reboot := by
  simp only [PicotoolWrapper.info_args, infoOptionTokens, selectorTokens, forceTokens,
    extendOpt_eq, append_if, append_if2, append_if_not, List.append_assoc]

/-- Claim C8: a spawn attempt that fails because the binary is missing at
invocation time yields the BinaryNotFound-shaped failure carrying the
resolved path; any other fault while spawning or reading yields the
ExecutionError-shaped failure carrying the description; and every failure
the executor can produce has one of these two shapes (hence no kind
outside BinaryNotFound, CommandFailed, ExecutionError ever appears). -/
theorem run_command_failure_taxonomy (path d : String) (spawn : SpawnResult) :
    PicotoolWrapper.run_command path SpawnResult.fileNotFound
      = Except.error (binaryNotFoundMessage path)
    ∧ PicotoolWrapper.run_command path (SpawnResult.otherError d)
      = Except.error (executionErrorMessage d)
    ∧ ∀ m, PicotoolWrapper.run_command path spawn = Except.error m →
        (∃ p, m = binaryNotFoundMessage p) ∨ (∃ s, m = executionErrorMessage s) := by
  refine ⟨rfl, rfl, ?_⟩
  intro m hm
  cases spawn with
  | completed rc out err =>
      by_cases h : rc = 0
      · simp [PicotoolWrapper.run_command, h] at hm
      · simp [PicotoolWrapper.run_command, h] at hm
        exact Or.inr ⟨commandFailedMessage (pyStrip err), hm.symm⟩
  | fileNotFound =>
      simp [PicotoolWrapper.run_command] at hm
      exact Or.inl ⟨path, hm.symm⟩
  | otherError d2 =>
      simp [PicotoolWrapper.run_command] at hm
      exact Or.inr ⟨d2, hm.symm⟩

/-- Claim C8 witness: the taxonomy at a concrete missing-binary spawn. -/
theorem run_command_failure_taxonomy_witness :
    (∃ p, binaryNotFoundMessage "/usr/bin/picotool" = binaryNotFoundMessage p)
    ∨ (∃ s, binaryNotFoundMessage "/usr/bin/picotool" = executionErrorMessage s) :=
  (run_command_failure_taxonomy "/usr/bin/picotool" "x" SpawnResult.fileNotFound).2.2
    (binaryNotFoundMessage "/usr/bin/picotool") rfl

/-- Claim C9: every tool call in the fixed set is handled inside a
per-branch exception boundary: the call always yields a text response —
the wrapper's text on success, an error text embedding the raised
message on failure — and never a fatal condition. -/
theorem call_tool_never_fatal (name : String) (h : name ∈ fixedToolNames) :
    (∀ outcome, (call_tool name outcome).isOk = true)
    ∧ (∀ res, call_tool name (Except.ok res) = Except.ok [⟨res⟩])
    ∧ ∀ e, ∃ label, toolErrorLabel name = some label ∧
        call_tool name (Except.error e)
          = Except.ok [⟨"Error running picotool " ++ label ++ ": " ++ e⟩] := by
  fin_cases h <;>
    exact ⟨fun o => by cases o <;> rfl, fun res => rfl, fun e => ⟨_, rfl, rfl⟩⟩

/-- Claim C9 witness: a failing erase call is converted to a text
response, not a fatal error. -/
theorem call_tool_never_fatal_witness :
    (call_tool "picotool_erase" (Except.error "boom")).isOk = true :=
  (call_tool_never_fatal "picotool_erase" (by decide)).1 (Except.error "boom")

/-- Claim C10: the info operation with every parameter at its declared
default composes exactly the two tokens of the operation name and the
basic-information flag. -/
theorem info_args_default : PicotoolWrapper.info_args {} = ["info", "-b"] := by
  decide
